import Mathlib

/-!
Shallow embedding of the Planto-Mart backend (Hono + Drizzle/D1 controllers).

The data model mirrors `src/db/schema.ts` (tables `products`, `productVariants`,
`productReviews`, `userProfiles`).  JSON-stringified columns (`liked_by`,
`disliked_by`, `replies`) are modelled directly as Lean lists, and the
serialize/parse round trips in the controllers are elided.  Real-valued
columns are modelled as exact rationals.  Each controller is translated to a
pure function over an explicit `Store`; handlers that mutate return the
response together with the post-call store (error paths leave the store
untouched, as the handlers return before any write).  Response message strings
are dropped; only the HTTP status category of each response is kept.
-/

/-- JavaScript `String.prototype.trim`, written over the character list so
that it evaluates inside the kernel. -/
def jsTrim (s : String) : String :=
  String.mk (((s.toList.dropWhile Char.isWhitespace).reverse.dropWhile
    Char.isWhitespace).reverse)

/-- JavaScript `String.prototype.toLowerCase`, written over the character
list so that it evaluates inside the kernel. -/
def jsToLower (s : String) : String := String.mk (s.toList.map Char.toLower)

/-- Error taxonomy of the controllers, by HTTP status code:
400 validation, 404 not found, 409 conflict, 500 internal. -/
inductive ApiError where
  | validation : ApiError
  | notFound : ApiError
  | conflict : ApiError
  | internal : ApiError
deriving DecidableEq, Repr

/-- A reply entry stored in a review's `replies` JSON column
(`interface Reply` in ProductReviews.ts). -/
structure Reply where
  user_uuid : String
  comment : String
  created_at : String
deriving DecidableEq, Repr

/-- Row of the `productReviews` table. -/
structure Review where
  review_id : String
  product_id : String
  user_uuid : String
  likes : Nat
  liked_by : List String
  disliked_by : List String
  dislikes : Nat
  comments : String
  replies : List Reply
  created_at : String
  updated_at : String
deriving DecidableEq, Repr

/-- Row of the `userProfiles` table (fields the controllers touch). -/
structure UserProfile where
  uuid : String
  full_name : String
  email : String
deriving DecidableEq, Repr

/-- Row of the `products` table (fields the controllers touch;
`real` columns as rationals, nullable columns as `Option`). -/
structure Product where
  product_id : String
  slug : String
  title : String
  description : String
  category : String
  price : Rat
  brand : String
  vendorID : String
  raiting : Rat
  reviewNumbers : Nat
  quantity : Int
  discountPercent : Option Rat
  discountPrice : Option Rat
  variantState : Bool
  featured : Bool
deriving DecidableEq, Repr

/-- Row of the `productVariants` table. -/
structure Variant where
  variant_id : String
  parent_product_id : String
  slug : String
  variant_name : String
  variant_type : String
  price : Rat
  quantity : Int
  discount_percent : Option Rat
  discount_price : Option Rat
  description : Option String
  is_active : Bool
deriving DecidableEq, Repr

/-- The relational store: one list per table, in insertion (rowid) order. -/
structure Store where
  products : List Product
  variants : List Variant
  reviews : List Review
  users : List UserProfile
deriving DecidableEq, Repr

/-- `db.update(productReviews).set(f).where(eq(review_id, id))`:
apply `f` to every row whose `review_id` matches. -/
def updateReviewsById (s : Store) (id : String) (f : Review → Review) : Store :=
  { s with reviews := s.reviews.map (fun r => if r.review_id = id then f r else r) }

/-- `likeReview` (ProductReviews.ts): 400 when id or user_uuid is falsy; 404
when the review or the user is absent; 409 when the user already liked;
otherwise remove the user from `disliked_by`, append to `liked_by`, and store
both counters as the lengths of the new arrays. -/
def likeReview (s : Store) (id user_uuid now : String) :
    Except ApiError Review × Store :=
  if id = "" ∨ user_uuid = "" then (.error .validation, s)
  else
    match s.reviews.find? (fun r => r.review_id = id) with
    | none => (.error .notFound, s)
    | some review =>
      match s.users.find? (fun u => u.uuid = user_uuid) with
      | none => (.error .notFound, s)
      | some _ =>
        if user_uuid ∈ review.liked_by then (.error .conflict, s)
        else
          let newDislikedBy := review.disliked_by.filter (fun uuid => uuid ≠ user_uuid)
          let newLikedBy := review.liked_by ++ [user_uuid]
          let upd : Review → Review := fun r =>
            { r with
              likes := newLikedBy.length
              liked_by := newLikedBy
              dislikes := newDislikedBy.length
              disliked_by := newDislikedBy
              updated_at := now }
          (.ok (upd review), updateReviewsById s id upd)

/-- `dislikeReview` (ProductReviews.ts): symmetric to `likeReview`. -/
def dislikeReview (s : Store) (id user_uuid now : String) :
    Except ApiError Review × Store :=
  if id = "" ∨ user_uuid = "" then (.error .validation, s)
  else
    match s.reviews.find? (fun r => r.review_id = id) with
    | none => (.error .notFound, s)
    | some review =>
      match s.users.find? (fun u => u.uuid = user_uuid) with
      | none => (.error .notFound, s)
      | some _ =>
        if user_uuid ∈ review.disliked_by then (.error .conflict, s)
        else
          let newLikedBy := review.liked_by.filter (fun uuid => uuid ≠ user_uuid)
          let newDislikedBy := review.disliked_by ++ [user_uuid]
          let upd : Review → Review := fun r =>
            { r with
              likes := newLikedBy.length
              liked_by := newLikedBy
              dislikes := newDislikedBy.length
              disliked_by := newDislikedBy
              updated_at := now }
          (.ok (upd review), updateReviewsById s id upd)

/-- `removeLikeDislike` (ProductReviews.ts): no user-existence check; 400 when
the user is in neither reactor array (the check happens before any write);
otherwise filter the user out of both arrays and re-derive both counters. -/
def removeLikeDislike (s : Store) (id user_uuid now : String) :
    Except ApiError Review × Store :=
  if id = "" ∨ user_uuid = "" then (.error .validation, s)
  else
    match s.reviews.find? (fun r => r.review_id = id) with
    | none => (.error .notFound, s)
    | some review =>
      let newLikedBy := review.liked_by.filter (fun uuid => uuid ≠ user_uuid)
      let newDislikedBy := review.disliked_by.filter (fun uuid => uuid ≠ user_uuid)
      let hadInteraction :=
        user_uuid ∈ review.liked_by ∨ user_uuid ∈ review.disliked_by
      if ¬hadInteraction then (.error .validation, s)
      else
        let upd : Review → Review := fun r =>
          { r with
            likes := newLikedBy.length
            liked_by := newLikedBy
            dislikes := newDislikedBy.length
            disliked_by := newDislikedBy
            updated_at := now }
        (.ok (upd review), updateReviewsById s id upd)

/-- `validateReplies` (ProductReviews.ts): every reply has a non-blank
user_uuid and comment (the `typeof created_at === 'string'` check is vacuous
in the typed model). -/
def validateReplies (replies : List Reply) : Bool :=
  replies.all (fun reply => (jsTrim reply.user_uuid) ≠ "" ∧ (jsTrim reply.comment) ≠ "")

/-- `createProductReview` (ProductReviews.ts): required-field and length
validation, then product / user / duplicate-review existence checks, then
insert with zeroed reaction state.  `reviewId` (uuidv4) and `now` are passed
in as parameters. -/
def createProductReview (s : Store) (product_id user_uuid comments : String)
    (replies : List Reply) (reviewId now : String) :
    Except ApiError Review × Store :=
  if product_id = "" ∨ user_uuid = "" ∨ comments = "" then (.error .validation, s)
  else if (jsTrim comments).length < 10 then (.error .validation, s)
  else if replies.length > 0 ∧ ¬validateReplies replies then (.error .validation, s)
  else
    match s.products.find? (fun p => p.product_id = product_id) with
    | none => (.error .notFound, s)
    | some _ =>
      match s.users.find? (fun u => u.uuid = user_uuid) with
      | none => (.error .notFound, s)
      | some _ =>
        match s.reviews.find? (fun r =>
            r.product_id = product_id ∧ r.user_uuid = user_uuid) with
        | some _ => (.error .conflict, s)
        | none =>
          let newReview : Review :=
            { review_id := reviewId
              product_id := jsTrim product_id
              user_uuid := jsTrim user_uuid
              likes := 0
              liked_by := []
              disliked_by := []
              dislikes := 0
              comments := jsTrim comments
              replies := replies
              created_at := now
              updated_at := now }
          (.ok newReview, { s with reviews := s.reviews ++ [newReview] })

/-- `addReplyToReview` (ProductReviews.ts): validates the comment length,
checks review and user existence, then appends one reply and bumps
`updated_at`, touching no other column. -/
def addReplyToReview (s : Store) (id user_uuid comment now : String) :
    Except ApiError Review × Store :=
  if id = "" ∨ user_uuid = "" ∨ comment = "" then (.error .validation, s)
  else if (jsTrim comment).length < 5 then (.error .validation, s)
  else
    match s.reviews.find? (fun r => r.review_id = id) with
    | none => (.error .notFound, s)
    | some review =>
      match s.users.find? (fun u => u.uuid = user_uuid) with
      | none => (.error .notFound, s)
      | some _ =>
        let newReply : Reply :=
          { user_uuid := jsTrim user_uuid
            comment := jsTrim comment
            created_at := now }
        let upd : Review → Review := fun r =>
          { r with
            replies := r.replies ++ [newReply]
            updated_at := now }
        (.ok (upd review), updateReviewsById s id upd)

/-- Projection of a review returned in `getReviewStats`' `mostLikedReview`. -/
structure MostLiked where
  review_id : String
  likes : Nat
  comments : String
deriving DecidableEq, Repr

/-- Payload of `getReviewStats`. -/
structure ReviewStats where
  totalReviews : Nat
  totalLikes : Nat
  totalDislikes : Nat
  totalReplies : Nat
  averageLikes : Rat
  averageDislikes : Rat
  mostLikedReview : Option MostLiked
deriving DecidableEq, Repr

/-- `Number(x.toFixed(2))`, modelled exactly on rationals:
round to the nearest hundredth. -/
def roundTo2 (q : Rat) : Rat := (round (q * 100) : Int) / 100

/-- `reviews.reduce((max, review) => review.likes > max.likes ? review : max)`:
JavaScript `reduce` without an initial value on a non-empty list. -/
def reduceMostLiked (h : Review) (t : List Review) : Review :=
  t.foldl (fun mx review => if review.likes > mx.likes then review else mx) h

/-- `select * from productReviews where product_id = productId`. -/
def reviewsFor (s : Store) (productId : String) : List Review :=
  s.reviews.filter (fun r => r.product_id = productId)

/-- `getReviewStats` (ProductReviews.ts): aggregates over all reviews of the
product; averages are 0 when there are no reviews. -/
def getReviewStats (s : Store) (productId : String) : Except ApiError ReviewStats :=
  if productId = "" then .error .validation
  else
    match s.products.find? (fun p => p.product_id = productId) with
    | none => .error .notFound
    | some _ =>
      let reviews := reviewsFor s productId
      let totalReviews := reviews.length
      let totalLikes : Nat := reviews.foldl (fun sum review => sum + review.likes) 0
      let totalDislikes : Nat := reviews.foldl (fun sum review => sum + review.dislikes) 0
      let totalReplies : Nat := reviews.foldl (fun sum review => sum + review.replies.length) 0
      let averageLikes : Rat :=
        if totalReviews > 0 then roundTo2 ((totalLikes : Rat) / (totalReviews : Rat)) else 0
      let averageDislikes : Rat :=
        if totalReviews > 0 then roundTo2 ((totalDislikes : Rat) / (totalReviews : Rat)) else 0
      let mostLikedReview : Option MostLiked :=
        match reviews with
        | [] => none
        | h :: t =>
          let m := reduceMostLiked h t
          some { review_id := m.review_id, likes := m.likes, comments := m.comments }
      .ok
        { totalReviews := totalReviews
          totalLikes := totalLikes
          totalDislikes := totalDislikes
          totalReplies := totalReplies
          averageLikes := averageLikes
          averageDislikes := averageDislikes
          mostLikedReview := mostLikedReview }

/-- Payload of `getProductBySlug`: the base product plus the variant
decoration.  In the product branch `variants` is `null` when the active list
is empty (`variants.length > 0 ? variants : null`); in the variant branch it
is always the full list. -/
structure ProductWithVariants where
  product : Product
  variants : Option (List Variant)
  has_variants : Bool
  selected_variant : Option Variant
  current_variant_slug : Option String
deriving DecidableEq, Repr

/-- Active variants of a product, in storage order
(`where parent_product_id = pid and is_active`). -/
def activeVariants (s : Store) (pid : String) : List Variant :=
  s.variants.filter (fun v => v.parent_product_id = pid ∧ v.is_active = true)

/-- `getProductBySlug` (product controller): first try the slug as a product
slug; else as an *active* variant slug, returning the parent product with all
its active variants plus `selected_variant` / `current_variant_slug`; else
404.  A variant whose parent row is missing also falls through to 404. -/
def getProductBySlug (s : Store) (slug : String) :
    Except ApiError ProductWithVariants :=
  if slug = "" then .error .validation
  else
    match s.products.find? (fun p => p.slug = slug) with
    | some product =>
      let variants := activeVariants s product.product_id
      .ok
        { product := product
          variants := if variants.length > 0 then some variants else none
          has_variants := variants.length > 0
          selected_variant := none
          current_variant_slug := none }
    | none =>
      match s.variants.find? (fun v => v.slug = slug ∧ v.is_active = true) with
      | some variant =>
        match s.products.find? (fun p => p.product_id = variant.parent_product_id) with
        | some parentProduct =>
          let allVariants := activeVariants s parentProduct.product_id
          .ok
            { product := parentProduct
              variants := some allVariants
              has_variants := true
              selected_variant := some variant
              current_variant_slug := some slug }
        | none => .error .notFound
      | none => .error .notFound

/-- `variant_name.toLowerCase().replace(/\s+/g, '-')`: lower-case, then
replace every maximal whitespace run with a single hyphen. -/
def collapseWhitespace (s : String) : String :=
  let step : List Char × Bool → Char → List Char × Bool := fun acc c =>
    if c.isWhitespace then
      if acc.2 then acc else (acc.1 ++ ['-'], true)
    else (acc.1 ++ [c], false)
  String.mk ((jsToLower s).toList.foldl step ([], false)).1

/-- Request body of `createProductVariant` after JSON parsing.  Absent string
fields are the empty string; absent numeric fields are `none`.  JavaScript
truthiness on a JSON number is `some d` with `d ≠ 0`. -/
structure VariantInput where
  parent_product_id : String
  variant_name : String
  variant_type : String
  price : Option Rat
  quantity : Option Int
  discount_percent : Option Rat
  description : Option String
deriving DecidableEq, Repr

/-- The storage layer's rejection of a `productVariants` insert: migration
0002 declares UNIQUE indexes on `variant_id` and on `slug`. -/
def variantInsertViolates (s : Store) (v : Variant) : Bool :=
  s.variants.any (fun w => w.variant_id = v.variant_id ∨ w.slug = v.slug)

/-- The derived variant slug: parent slug, hyphen, normalized variant name. -/
def deriveVariantSlug (parentSlug name : String) : String :=
  parentSlug ++ "-" ++ collapseWhitespace name

/-- The single uniqueness probe plus the `Date.now()` suffix on conflict;
the suffixed slug is not probed again. -/
def variantFinalSlug (s : Store) (parentSlug name : String) (nowMs : Nat) : String :=
  if (s.variants.find? (fun v => v.slug = deriveVariantSlug parentSlug name)).isSome then
    deriveVariantSlug parentSlug name ++ "-" ++ toString nowMs
  else deriveVariantSlug parentSlug name

/-- JavaScript truthiness of the raw `discount_percent` body field: present
and nonzero. -/
def variantDpTruthy (inp : VariantInput) : Bool :=
  match inp.discount_percent with
  | some d => d != 0
  | none => false

/-- The `variantData` object assembled by `createProductVariant`:
`discount_percent`/`discount_price` are only set when the raw
`discount_percent` is truthy. -/
def builtVariant (inp : VariantInput) (variant_id slug : String) : Variant :=
  { variant_id := variant_id
    parent_product_id := inp.parent_product_id
    slug := slug
    variant_name := inp.variant_name
    variant_type := inp.variant_type
    price := inp.price.getD 0
    quantity := inp.quantity.getD 0
    discount_percent := if variantDpTruthy inp then inp.discount_percent else none
    discount_price :=
      if variantDpTruthy inp then
        some (inp.price.getD 0 - inp.price.getD 0 * (inp.discount_percent.getD 0) / 100)
      else none
    description := inp.description
    is_active := true }

/-- `createProductVariant` (product controller): required-field truthiness
check (a zero price fails it), parent lookup, slug derivation and
disambiguation, then the insert; a UNIQUE-index violation surfaces as the
controller's catch-all 500.  `variant_id` (generated) and `nowMs`
(`Date.now()`) are parameters. -/
def createProductVariant (s : Store) (inp : VariantInput)
    (variant_id : String) (nowMs : Nat) :
    Except ApiError Variant × Store :=
  if inp.parent_product_id = "" ∨ inp.variant_name = "" ∨ inp.variant_type = "" ∨
      inp.price = none ∨ inp.price = some 0 ∨ inp.quantity = none then
    (.error .validation, s)
  else
    match s.products.find? (fun p => p.product_id = inp.parent_product_id) with
    | none => (.error .notFound, s)
    | some parentProduct =>
      if variantInsertViolates s
          (builtVariant inp variant_id
            (variantFinalSlug s parentProduct.slug inp.variant_name nowMs)) then
        (.error .internal, s)
      else
        (.ok (builtVariant inp variant_id
            (variantFinalSlug s parentProduct.slug inp.variant_name nowMs)),
          { s with variants := s.variants ++
              [builtVariant inp variant_id
                (variantFinalSlug s parentProduct.slug inp.variant_name nowMs)] })

/-- `getProductsByVendor` (product controller): filters by vendor and returns
success unconditionally — there is no empty-result check in this handler. -/
def getProductsByVendor (s : Store) (vendorID : String) :
    Except ApiError (List Product) :=
  if vendorID = "" then .error .validation
  else .ok (s.products.filter (fun p => p.vendorID = vendorID))

/-- `getFeaturedProducts` (product controller): returns all featured products,
success unconditionally — no empty-result check. -/
def getFeaturedProducts (s : Store) : Except ApiError (List Product) :=
  .ok (s.products.filter (fun p => p.featured = true))

/-- `getFeaturedProductsByCategory` (product controller): 404 when the
filtered list is empty. -/
def getFeaturedProductsByCategory (s : Store) (category : String) :
    Except ApiError (List Product) :=
  if category = "" then .error .validation
  else if (s.products.filter
      (fun p => p.featured = true ∧ p.category = category)).length = 0 then
    .error .notFound
  else .ok (s.products.filter (fun p => p.featured = true ∧ p.category = category))

/-- `getProductsByCategory` (product controller): 404 when empty. -/
def getProductsByCategory (s : Store) (category : String) :
    Except ApiError (List Product) :=
  if category = "" then .error .validation
  else if (s.products.filter (fun p => p.category = category)).length = 0 then
    .error .notFound
  else .ok (s.products.filter (fun p => p.category = category))

/-- Descending comparison on an optional-rational sort key; rows with a NULL
key never reach the sort because the SQL predicate already filtered them. -/
def discountGE (a b : Product) : Prop :=
  b.discountPercent.getD 0 ≤ a.discountPercent.getD 0

instance : DecidableRel discountGE := fun _a _b =>
  inferInstanceAs (Decidable (_ ≤ _))

/-- `getProductsByMinDiscount` (product controller): SQL
`discount_percent >= min` (NULL rows excluded), `ORDER BY discount_percent
DESC`, 404 when empty, else the top 4. -/
def getProductsByMinDiscount (s : Store) (minDiscount : Rat) :
    Except ApiError (List Product) :=
  if ((s.products.filter (fun p =>
        match p.discountPercent with
        | some d => minDiscount ≤ d
        | none => False)).insertionSort discountGE).length = 0 then
    .error .notFound
  else
    .ok (((s.products.filter (fun p =>
        match p.discountPercent with
        | some d => minDiscount ≤ d
        | none => False)).insertionSort discountGE).take 4)

/-- Descending comparison on the rating column. -/
def raitingGE (a b : Product) : Prop := b.raiting ≤ a.raiting

instance : DecidableRel raitingGE := fun _a _b =>
  inferInstanceAs (Decidable (_ ≤ _))

/-- `getTopRatedProductsByVendor` (product controller): filter by vendor,
`ORDER BY raiting DESC`, 404 when empty, else top 4. -/
def getTopRatedProductsByVendor (s : Store) (vendorID : String) :
    Except ApiError (List Product) :=
  if vendorID = "" then .error .validation
  else if ((s.products.filter
      (fun p => p.vendorID = vendorID)).insertionSort raitingGE).length = 0 then
    .error .notFound
  else
    .ok (((s.products.filter
      (fun p => p.vendorID = vendorID)).insertionSort raitingGE).take 4)

/-- Ascending comparison on the price column. -/
def priceLE (a b : Product) : Prop := a.price ≤ b.price

instance : DecidableRel priceLE := fun _a _b =>
  inferInstanceAs (Decidable (_ ≤ _))

/-- JavaScript truthiness of the `range` query parameter: present, nonzero. -/
def rangeTruthy (range : Option Rat) : Bool :=
  match range with
  | some r => r != 0
  | none => false

/-- The SQL predicate of `getProductsByStartingPrice`: a closed range when
`range` is truthy, a lower bound otherwise. -/
def startingPriceFilter (s : Store) (price : Rat) (range : Option Rat) : List Product :=
  s.products.filter (fun p =>
    if rangeTruthy range then price ≤ p.price ∧ p.price ≤ price + range.getD 0
    else price ≤ p.price)

/-- `getProductsByStartingPrice` (product controller): price at least
`price`, bounded above too when `range` is truthy; `ORDER BY price`; 404 when
empty. -/
def getProductsByStartingPrice (s : Store) (price : Rat) (range : Option Rat) :
    Except ApiError (List Product) :=
  if ((startingPriceFilter s price range).insertionSort priceLE).length = 0 then
    .error .notFound
  else .ok ((startingPriceFilter s price range).insertionSort priceLE)

/-- Reaction invariant of a single review row: a user appears in at most one
of the two reactor arrays, and both counters equal the corresponding array
lengths. -/
def reactionInvariant (r : Review) : Prop :=
  (∀ u ∈ r.liked_by, u ∉ r.disliked_by) ∧
  r.likes = r.liked_by.length ∧ r.dislikes = r.disliked_by.length

instance (r : Review) : Decidable (reactionInvariant r) :=
  inferInstanceAs (Decidable (_ ∧ _))

/-- Mutual exclusivity survives a like: the liked array gains `u`, the
disliked array loses it. -/
theorem likeUpd_exclusive (likedBy dislikedBy : List String) (u : String)
    (h : ∀ x ∈ likedBy, x ∉ dislikedBy) :
    ∀ x ∈ likedBy ++ [u], x ∉ dislikedBy.filter (fun uuid => uuid ≠ u) := by
  intro x hx hmem
  rw [List.mem_filter] at hmem
  rcases List.mem_append.1 hx with hx | hx
  · exact h x hx hmem.1
  · simp only [List.mem_singleton] at hx
    subst hx
    simp at hmem

/-- Mutual exclusivity survives a dislike: the disliked array gains `u`, the
liked array loses it. -/
theorem dislikeUpd_exclusive (likedBy dislikedBy : List String) (u : String)
    (h : ∀ x ∈ likedBy, x ∉ dislikedBy) :
    ∀ x ∈ likedBy.filter (fun uuid => uuid ≠ u), x ∉ dislikedBy ++ [u] := by
  intro x hx hmem
  rw [List.mem_filter] at hx
  rcases List.mem_append.1 hmem with hmem | hmem
  · exact h x hx.1 hmem
  · simp only [List.mem_singleton] at hmem
    subst hmem
    simp at hx

/-- Mutual exclusivity survives removing a reactor from both arrays. -/
theorem removeUpd_exclusive (likedBy dislikedBy : List String) (u : String)
    (h : ∀ x ∈ likedBy, x ∉ dislikedBy) :
    ∀ x ∈ likedBy.filter (fun uuid => uuid ≠ u),
      x ∉ dislikedBy.filter (fun uuid => uuid ≠ u) := by
  intro x hx hmem
  rw [List.mem_filter] at hx hmem
  exact h x hx.1 hmem.1

/-- The post-store of `updateReviewsById` satisfies the reaction invariant
provided untouched rows did and the update function re-establishes it. -/
theorem updateReviewsById_invariant (s : Store) (id : String) (f : Review → Review)
    (hinv : ∀ r ∈ s.reviews, reactionInvariant r)
    (hf : ∀ r ∈ s.reviews, reactionInvariant (f r)) :
    ∀ r ∈ (updateReviewsById s id f).reviews, reactionInvariant r := by
  intro r hr
  simp only [updateReviewsById, List.mem_map] at hr
  obtain ⟨r₀, hr₀, rfl⟩ := hr
  by_cases hid : r₀.review_id = id
  · simpa [hid] using hf r₀ hr₀
  · simpa [hid] using hinv r₀ hr₀

/-- C1: For every review R and every user U, after any reaction-mutating call
(`likeReview`, `dislikeReview`, `removeLikeDislike`) on a store in which every
review satisfies the reaction invariant, every review of the resulting store
still has U in at most one of `liked_by`/`disliked_by`, and `likes`/`dislikes`
equal to the lengths of `liked_by`/`disliked_by`: the counters are written
only as lengths of the new arrays, never incremented independently. -/
theorem c1_reaction_invariant_preserved (s : Store) (id u now : String)
    (hinv : ∀ r ∈ s.reviews, reactionInvariant r) :
    (∀ r ∈ (likeReview s id u now).2.reviews, reactionInvariant r) ∧
    (∀ r ∈ (dislikeReview s id u now).2.reviews, reactionInvariant r) ∧
    (∀ r ∈ (removeLikeDislike s id u now).2.reviews, reactionInvariant r) := by
  refine ⟨?_, ?_, ?_⟩
  · unfold likeReview
    split
    · exact hinv
    · cases hfind : s.reviews.find? (fun r => r.review_id = id) with
      | none => simp only [hfind]; exact hinv
      | some review =>
        have hmemr : review ∈ s.reviews := List.mem_of_find?_eq_some hfind
        cases hfindu : s.users.find? (fun p => p.uuid = u) with
        | none => simp only [hfind, hfindu]; exact hinv
        | some usr =>
          simp only [hfind, hfindu]
          split
          · exact hinv
          · refine updateReviewsById_invariant s id _ hinv ?_
            intro r _
            exact ⟨likeUpd_exclusive _ _ _ ((hinv review hmemr).1), rfl, rfl⟩
  · unfold dislikeReview
    split
    · exact hinv
    · cases hfind : s.reviews.find? (fun r => r.review_id = id) with
      | none => simp only [hfind]; exact hinv
      | some review =>
        have hmemr : review ∈ s.reviews := List.mem_of_find?_eq_some hfind
        cases hfindu : s.users.find? (fun p => p.uuid = u) with
        | none => simp only [hfind, hfindu]; exact hinv
        | some usr =>
          simp only [hfind, hfindu]
          split
          · exact hinv
          · refine updateReviewsById_invariant s id _ hinv ?_
            intro r _
            exact ⟨dislikeUpd_exclusive _ _ _ ((hinv review hmemr).1), rfl, rfl⟩
  · unfold removeLikeDislike
    split
    · exact hinv
    · cases hfind : s.reviews.find? (fun r => r.review_id = id) with
      | none => simp only [hfind]; exact hinv
      | some review =>
        have hmemr : review ∈ s.reviews := List.mem_of_find?_eq_some hfind
        simp only [hfind]
        split
        · exact hinv
        · refine updateReviewsById_invariant s id _ hinv ?_
          intro r _
          exact ⟨removeUpd_exclusive _ _ _ ((hinv review hmemr).1), rfl, rfl⟩

/-- Demo users for concrete evaluations. -/
def demoUser1 : UserProfile := { uuid := "u1", full_name := "Asha", email := "a@x.y" }

/-- Second demo user. -/
def demoUser2 : UserProfile := { uuid := "u2", full_name := "Bela", email := "b@x.y" }

/-- Demo product the demo reviews point at. -/
def demoProduct : Product :=
  { product_id := "p1", slug := "plant", title := "Plant", description := "d"
    category := "Indoor", price := 100, brand := "B", vendorID := "v1"
    raiting := 4, reviewNumbers := 1, quantity := 3
    discountPercent := none, discountPrice := none
    variantState := false, featured := true }

/-- Demo review satisfying the reaction invariant. -/
def demoReview : Review :=
  { review_id := "r1", product_id := "p1", user_uuid := "u1"
    likes := 1, liked_by := ["u1"], disliked_by := ["u2"], dislikes := 1
    comments := "a fine plant indeed", replies := []
    created_at := "t0", updated_at := "t0" }

/-- Demo store used by the witnesses. -/
def demoStore : Store :=
  { products := [demoProduct], variants := [], reviews := [demoReview]
    users := [demoUser1, demoUser2] }

/-- Witness for C1 at a concrete store. -/
theorem c1_reaction_invariant_preserved_witness :
    (∀ r ∈ (likeReview demoStore "r1" "u2" "t1").2.reviews, reactionInvariant r) ∧
    (∀ r ∈ (dislikeReview demoStore "r1" "u2" "t1").2.reviews, reactionInvariant r) ∧
    (∀ r ∈ (removeLikeDislike demoStore "r1" "u2" "t1").2.reviews, reactionInvariant r) :=
  c1_reaction_invariant_preserved demoStore "r1" "u2" "t1" (by decide)

/-- C2: For an existing review and existing user (non-blank ids), `likeReview`
fails with ConflictError iff the user is already in `liked_by`, and otherwise
returns the review with the user appended to `liked_by` and filtered out of
`disliked_by`; symmetrically for `dislikeReview`; `removeLikeDislike` fails
with ValidationError iff the user is in neither array, and on that failure the
store is unchanged. -/
theorem c2_reaction_error_conditions (s : Store) (id u now : String)
    (hid : id ≠ "") (hu : u ≠ "")
    (r : Review) (hr : s.reviews.find? (fun x => x.review_id = id) = some r)
    (usr : UserProfile) (husr : s.users.find? (fun x => x.uuid = u) = some usr) :
    ((likeReview s id u now).1 = .error .conflict ↔ u ∈ r.liked_by) ∧
    (u ∉ r.liked_by →
      (likeReview s id u now).1 = .ok
        { r with
          likes := (r.liked_by ++ [u]).length
          liked_by := r.liked_by ++ [u]
          dislikes := (r.disliked_by.filter (fun x => x ≠ u)).length
          disliked_by := r.disliked_by.filter (fun x => x ≠ u)
          updated_at := now }) ∧
    ((dislikeReview s id u now).1 = .error .conflict ↔ u ∈ r.disliked_by) ∧
            (u ∉ r.disliked_by →
      (dislikeReview s id u now).1 = .ok
        { r with
          likes := (r.liked_by.filter (fun x => x ≠ u)).length
          liked_by := r.liked_by.filter (fun x => x ≠ u)
          dislikes := (r.disliked_by ++ [u]).length
          disliked_by := r.disliked_by ++ [u]
          updated_at := now }) ∧
    ((removeLikeDislike s id u now).1 = .error .validation ↔
      (u ∉ r.liked_by ∧ u ∉ r.disliked_by)) ∧
    (u ∉ r.liked_by ∧ u ∉ r.disliked_by → (removeLikeDislike s id u now).2 = s) := by
  refine ⟨?_, ?_, ?_, ?_, ?_, ?_⟩
  · unfold likeReview
    simp only [hid, hu, or_self, if_false, hr, husr, false_or]
    by_cases hmem : u ∈ r.liked_by <;> simp [hmem]
  · intro hmem
    unfold likeReview
    simp only [hid, hu, or_self, if_false, hr, husr, false_or]
    simp [hmem]
  · unfold dislikeReview
    simp only [hid, hu, or_self, if_false, hr, husr, false_or]
    by_cases hmem : u ∈ r.disliked_by <;> simp [hmem]
  · intro hmem
    unfold dislikeReview
    simp only [hid, hu, or_self, if_false, hr, husr, false_or]
    simp [hmem]
  · unfold removeLikeDislike
    simp only [hid, hu, or_self, if_false, hr, husr, false_or]
    by_cases hl : u ∈ r.liked_by
    · simp [hl]
    · by_cases hd : u ∈ r.disliked_by <;> simp [hl, hd]
  · intro hmem
    unfold removeLikeDislike
    simp only [hid, hu, or_self, if_false, hr, husr, false_or]
    simp [hmem.1, hmem.2]

/-- Witness for C2 at a concrete store. -/
theorem c2_reaction_error_conditions_witness :
    (((likeReview demoStore "r1" "u2" "t1").1 = .error .conflict ↔
        "u2" ∈ demoReview.liked_by) ∧
      ("u2" ∉ demoReview.liked_by →
        (likeReview demoStore "r1" "u2" "t1").1 = .ok
          { demoReview with
            likes := (demoReview.liked_by ++ ["u2"]).length
            liked_by := demoReview.liked_by ++ ["u2"]
            dislikes := (demoReview.disliked_by.filter (fun x => x ≠ "u2")).length
            disliked_by := demoReview.disliked_by.filter (fun x => x ≠ "u2")
            updated_at := "t1" }) ∧
      ((dislikeReview demoStore "r1" "u2" "t1").1 = .error .conflict ↔
        "u2" ∈ demoReview.disliked_by) ∧
      ("u2" ∉ demoReview.disliked_by →
        (dislikeReview demoStore "r1" "u2" "t1").1 = .ok
          { demoReview with
            likes := (demoReview.liked_by.filter (fun x => x ≠ "u2")).length
            liked_by := demoReview.liked_by.filter (fun x => x ≠ "u2")
            dislikes := (demoReview.disliked_by ++ ["u2"]).length
            disliked_by := demoReview.disliked_by ++ ["u2"]
            updated_at := "t1" }) ∧
      ((removeLikeDislike demoStore "r1" "u2" "t1").1 = .error .validation ↔
        ("u2" ∉ demoReview.liked_by ∧ "u2" ∉ demoReview.disliked_by)) ∧
      (("u2" ∉ demoReview.liked_by ∧ "u2" ∉ demoReview.disliked_by) →
        (removeLikeDislike demoStore "r1" "u2" "t1").2 = demoStore)) :=
  c2_reaction_error_conditions demoStore "r1" "u2" "t1" (by decide) (by decide)
    demoReview (by decide) demoUser2 (by decide)

/-- Counterexample to C3 as stated: with a review for (p1,u1) already stored,
a further `createProductReview` call for the same pair whose comments are too
short fails with ValidationError (400), not ConflictError (409) — the
validation checks run before the duplicate check. -/
theorem c3_counterexample :
    (createProductReview demoStore "p1" "u1" "short" [] "rid2" "t2").1 =
      .error .validation ∧
    (Except.error ApiError.validation : Except ApiError Review) ≠
      .error .conflict :=
  ⟨rfl, by simp⟩

/-- C3 (amended): for a pair that already has a stored review, every further
`createProductReview` call for that pair fails (leaving the store unchanged,
so a second row is never created), and it fails with ConflictError whenever
the call passes the field validations and the product and user exist. -/
theorem c3_duplicate_review_rejected (s : Store) (pid uid comments : String)
    (replies : List Reply) (rid now : String)
    (r : Review) (hr : r ∈ s.reviews)
    (hrp : r.product_id = pid) (hru : r.user_uuid = uid) :
    (createProductReview s pid uid comments replies rid now).2 = s ∧
    (∃ e, (createProductReview s pid uid comments replies rid now).1 = .error e) ∧
    (pid ≠ "" → uid ≠ "" → comments ≠ "" → ¬(jsTrim comments).length < 10 →
      ¬(replies.length > 0 ∧ ¬validateReplies replies) →
      (∃ p ∈ s.products, p.product_id = pid) →
      (∃ usr ∈ s.users, usr.uuid = uid) →
      (createProductReview s pid uid comments replies rid now).1 =
        .error .conflict) := by
  have hfind : (s.reviews.find? (fun x => x.product_id = pid ∧ x.user_uuid = uid)).isSome := by
    rw [List.find?_isSome]
    exact ⟨r, hr, by simp [hrp, hru]⟩
  obtain ⟨y, hy⟩ := Option.isSome_iff_exists.mp hfind
  unfold createProductReview
  split
  · rename_i h
    refine ⟨rfl, ⟨.validation, rfl⟩, ?_⟩
    intro h1 h2 h3 _ _ _ _
    rcases h with h | h | h <;> contradiction
  · split
    · rename_i h
      refine ⟨rfl, ⟨.validation, rfl⟩, ?_⟩
      intro _ _ _ h4 _ _ _
      exact absurd h h4
    · split
      · rename_i h
        refine ⟨rfl, ⟨.validation, rfl⟩, ?_⟩
        intro _ _ _ _ h5 _ _
        exact absurd h h5
      · cases hp : s.products.find? (fun p => p.product_id = pid) with
        | none =>
          simp only [hp]
          refine ⟨by trivial, ⟨.notFound, by trivial⟩, ?_⟩
          intro _ _ _ _ _ hex _
          obtain ⟨p, hpmem, hpid⟩ := hex
          rw [List.find?_eq_none] at hp
          exact absurd (by simp [hpid]) (hp p hpmem)
        | some prod =>
          cases huu : s.users.find? (fun x => x.uuid = uid) with
          | none =>
            simp only [hp, huu]
            refine ⟨by trivial, ⟨.notFound, by trivial⟩, ?_⟩
            intro _ _ _ _ _ _ hex
            obtain ⟨usr, humem, huid⟩ := hex
            rw [List.find?_eq_none] at huu
            exact absurd (by simp [huid]) (huu usr humem)
          | some usr =>
            simp only [hp, huu, hy]
            exact ⟨by trivial, ⟨.conflict, by trivial⟩, fun _ _ _ _ _ _ _ => by trivial⟩

/-- Witness for the amended C3 at a concrete store: a well-formed duplicate
create for (p1,u1) leaves the store unchanged and yields ConflictError. -/
theorem c3_duplicate_review_rejected_witness :
    (createProductReview demoStore "p1" "u1" "second review attempt" [] "r9" "t9").2 =
      demoStore ∧
    (∃ e, (createProductReview demoStore "p1" "u1" "second review attempt" [] "r9" "t9").1 =
      .error e) ∧
    ("p1" ≠ "" → "u1" ≠ "" → "second review attempt" ≠ "" →
      ¬(jsTrim "second review attempt").length < 10 →
      ¬(([] : List Reply).length > 0 ∧ ¬validateReplies []) →
      (∃ p ∈ demoStore.products, p.product_id = "p1") →
      (∃ usr ∈ demoStore.users, usr.uuid = "u1") →
      (createProductReview demoStore "p1" "u1" "second review attempt" [] "r9" "t9").1 =
        .error .conflict) :=
  c3_duplicate_review_rejected demoStore "p1" "u1" "second review attempt" [] "r9" "t9"
    demoReview (by decide) (by decide) (by decide)

/-- The reply appended by a successful `addReplyToReview` call. -/
def newReplyOf (user_uuid comment now : String) : Reply :=
  { user_uuid := jsTrim user_uuid, comment := jsTrim comment, created_at := now }

/-- C10: a successful `addReplyToReview` changes only the matching review's
`replies` (appending exactly one entry, preserving every stored reply in
place) and its `updated_at`; all other review columns, all other reviews, and
all other tables are untouched. -/
theorem c10_addReply_frame (s : Store) (id u comment now : String) (rv : Review)
    (hok : (addReplyToReview s id u comment now).1 = .ok rv) :
    (addReplyToReview s id u comment now).2.products = s.products ∧
    (addReplyToReview s id u comment now).2.variants = s.variants ∧
    (addReplyToReview s id u comment now).2.users = s.users ∧
    (addReplyToReview s id u comment now).2.reviews.length = s.reviews.length ∧
    (∀ i r r', s.reviews.get? i = some r →
      (addReplyToReview s id u comment now).2.reviews.get? i = some r' →
      r'.review_id = r.review_id ∧ r'.product_id = r.product_id ∧
      r'.user_uuid = r.user_uuid ∧ r'.likes = r.likes ∧
      r'.liked_by = r.liked_by ∧ r'.disliked_by = r.disliked_by ∧
      r'.dislikes = r.dislikes ∧ r'.comments = r.comments ∧
      r'.created_at = r.created_at ∧
      (∀ j, j < r.replies.length → r'.replies.get? j = r.replies.get? j) ∧
      (r.review_id = id →
        r'.replies = r.replies ++ [newReplyOf u comment now] ∧ r'.updated_at = now) ∧
      (r.review_id ≠ id → r' = r)) := by
  unfold addReplyToReview at hok ⊢
  split at hok
  · exact absurd hok (by simp)
  · rename_i h1
    split at hok
    · exact absurd hok (by simp)
    · rename_i h2
      cases hfind : s.reviews.find? (fun r => r.review_id = id) with
      | none => rw [hfind] at hok; exact absurd hok (by simp)
      | some review =>
        rw [hfind] at hok
        cases hfindu : s.users.find? (fun x => x.uuid = u) with
        | none => rw [hfindu] at hok; exact absurd hok (by simp)
        | some usr =>
          simp only [if_neg h1, if_neg h2, hfind, hfindu]
          refine ⟨rfl, rfl, rfl, by simp [updateReviewsById], ?_⟩
          intro i r r' hg hg'
          simp only [updateReviewsById, List.get?_map, hg, Option.map_some'] at hg'
          by_cases hid : r.review_id = id
          · rw [if_pos hid] at hg'
            cases hg'
            refine ⟨rfl, rfl, rfl, rfl, rfl, rfl, rfl, rfl, rfl, ?_, ?_, ?_⟩
            · intro j hj
              show (r.replies ++
                [(⟨jsTrim u, jsTrim comment, now⟩ : Reply)]).get? j = r.replies.get? j
              exact List.get?_append hj
            · intro _
              exact ⟨rfl, rfl⟩
            · intro hne
              exact absurd hid hne
          · rw [if_neg hid] at hg'
            cases hg'
            exact ⟨rfl, rfl, rfl, rfl, rfl, rfl, rfl, rfl, rfl,
              fun j hj => rfl, fun h => absurd h hid, fun _ => rfl⟩

/-- Witness for C10: a concrete successful reply append. -/
theorem c10_addReply_frame_witness :
    (addReplyToReview demoStore "r1" "u2" "nice plant" "t3").2.products =
      demoStore.products ∧
    (addReplyToReview demoStore "r1" "u2" "nice plant" "t3").2.variants =
      demoStore.variants ∧
    (addReplyToReview demoStore "r1" "u2" "nice plant" "t3").2.users =
      demoStore.users ∧
    (addReplyToReview demoStore "r1" "u2" "nice plant" "t3").2.reviews.length =
      demoStore.reviews.length ∧
    (∀ i r r', demoStore.reviews.get? i = some r →
      (addReplyToReview demoStore "r1" "u2" "nice plant" "t3").2.reviews.get? i = some r' →
      r'.review_id = r.review_id ∧ r'.product_id = r.product_id ∧
      r'.user_uuid = r.user_uuid ∧ r'.likes = r.likes ∧
      r'.liked_by = r.liked_by ∧ r'.disliked_by = r.disliked_by ∧
      r'.dislikes = r.dislikes ∧ r'.comments = r.comments ∧
      r'.created_at = r.created_at ∧
      (∀ j, j < r.replies.length → r'.replies.get? j = r.replies.get? j) ∧
      (r.review_id = "r1" →
        r'.replies = r.replies ++ [newReplyOf "u2" "nice plant" "t3"] ∧
        r'.updated_at = "t3") ∧
      (r.review_id ≠ "r1" → r' = r)) :=
  c10_addReply_frame demoStore "r1" "u2" "nice plant" "t3"
    { demoReview with
      replies := [newReplyOf "u2" "nice plant" "t3"]
      updated_at := "t3" }
    (by rfl)

/-- A JavaScript `reduce`-style running sum equals the sum of the mapped
list. -/
theorem foldl_add_eq_sum (f : Review → Nat) (l : List Review) (n : Nat) :
    l.foldl (fun sum r => sum + f r) n = n + (l.map f).sum := by
  induction l generalizing n with
  | nil => simp
  | cons h t ih => simp [ih, Nat.add_assoc]

/-- The `reduce`-style maximum over likes returns the first review attaining
the maximal like count: it splits the list around the result, every element
is bounded by it, and everything strictly before it has strictly fewer
likes. -/
theorem reduceMostLiked_spec (h : Review) (t : List Review) :
    ∃ l1 l2, h :: t = l1 ++ reduceMostLiked h t :: l2 ∧
      (∀ x ∈ h :: t, x.likes ≤ (reduceMostLiked h t).likes) ∧
      (∀ x ∈ l1, x.likes < (reduceMostLiked h t).likes) := by
  induction t generalizing h with
  | nil =>
    refine ⟨[], [], ?_, ?_, ?_⟩ <;> simp [reduceMostLiked]
  | cons r t' ih =>
    have hstep : reduceMostLiked h (r :: t') =
        reduceMostLiked (if r.likes > h.likes then r else h) t' := rfl
    by_cases hr : r.likes > h.likes
    · rw [hstep, if_pos hr]
      obtain ⟨l1, l2, hdecomp, hub, hlt⟩ := ih r
      refine ⟨h :: l1, l2, ?_, ?_, ?_⟩
      · rw [List.cons_append, ← hdecomp]
      · intro x hx
        rcases List.mem_cons.1 hx with hxh | hx
        · rw [hxh]
          exact le_trans (le_of_lt hr) (hub r (List.mem_cons_self r t'))
        · exact hub x hx
      · intro x hx
        rcases List.mem_cons.1 hx with hxh | hx
        · rw [hxh]
          exact lt_of_lt_of_le hr (hub r (List.mem_cons_self r t'))
        · exact hlt x hx
    · rw [hstep, if_neg hr]
      push_neg at hr
      obtain ⟨l1, l2, hdecomp, hub, hlt⟩ := ih h
      cases l1 with
      | nil =>
        simp only [List.nil_append] at hdecomp
        have hh : h = reduceMostLiked h t' := (List.cons.injEq _ _ _ _ ▸ hdecomp).1
        refine ⟨[], r :: t', ?_, ?_, ?_⟩
        · rw [List.nil_append, ← hh]
        · intro x hx
          rcases List.mem_cons.1 hx with hxh | hx
          · rw [hxh]
            exact hub h (List.mem_cons_self h t')
          · rcases List.mem_cons.1 hx with hxr | hx
            · rw [hxr]
              exact le_trans hr (hub h (List.mem_cons_self h t'))
            · exact hub x (List.mem_cons_of_mem h hx)
        · intro x hx
          exact absurd hx (List.not_mem_nil x)
      | cons a l1' =>
        rw [List.cons_append] at hdecomp
        have ha : a = h := ((List.cons.injEq _ _ _ _ ▸ hdecomp) : _ ∧ _).1.symm
        have ht' : t' = l1' ++ reduceMostLiked h t' :: l2 :=
          ((List.cons.injEq _ _ _ _ ▸ hdecomp) : _ ∧ _).2
        have hhlt : h.likes < (reduceMostLiked h t').likes := by
          have := hlt a (List.mem_cons_self a l1')
          rwa [ha] at this
        refine ⟨h :: r :: l1', l2, ?_, ?_, ?_⟩
        · rw [List.cons_append, List.cons_append, ← ht']
        · intro x hx
          rcases List.mem_cons.1 hx with hxh | hx
          · rw [hxh]
            exact hub h (List.mem_cons_self h t')
          · rcases List.mem_cons.1 hx with hxr | hx
            · rw [hxr]
              exact le_trans hr (le_of_lt hhlt)
            · exact hub x (List.mem_cons_of_mem h hx)
        · intro x hx
          rcases List.mem_cons.1 hx with hxh | hx
          · rw [hxh]
            exact hhlt
          · rcases List.mem_cons.1 hx with hxr | hx
            · rw [hxr]
              exact lt_of_le_of_lt hr hhlt
            · exact hlt x (List.mem_cons_of_mem a hx)

/-- C9: for a product with at least one review, `getReviewStats` returns the
review count, the sums of the stored `likes`/`dislikes` counters, the total
reply count as the sum of the reply-list lengths, the averages as the totals
divided by the count rounded to 2 decimals, and as `mostLikedReview` the first
review in storage order attaining the maximal like count. -/
theorem c9_getReviewStats_aggregates (s : Store) (pid : String) (hpid : pid ≠ "")
    (p : Product) (hp : s.products.find? (fun x => x.product_id = pid) = some p)
    (hne : reviewsFor s pid ≠ []) :
    ∃ st, getReviewStats s pid = .ok st ∧
      st.totalReviews = (reviewsFor s pid).length ∧
      st.totalLikes = ((reviewsFor s pid).map Review.likes).sum ∧
      st.totalDislikes = ((reviewsFor s pid).map Review.dislikes).sum ∧
      st.totalReplies = ((reviewsFor s pid).map (fun r => r.replies.length)).sum ∧
      st.averageLikes = roundTo2 ((st.totalLikes : Rat) / (st.totalReviews : Rat)) ∧
      st.averageDislikes = roundTo2 ((st.totalDislikes : Rat) / (st.totalReviews : Rat)) ∧
      (∃ l1 m l2, reviewsFor s pid = l1 ++ m :: l2 ∧
        st.mostLikedReview =
          some { review_id := m.review_id, likes := m.likes, comments := m.comments } ∧
        (∀ x ∈ reviewsFor s pid, x.likes ≤ m.likes) ∧
        (∀ x ∈ l1, x.likes < m.likes)) := by
  cases hrevs : reviewsFor s pid with
  | nil => exact absurd hrevs hne
  | cons h0 t0 =>
    have hlen : 0 < (reviewsFor s pid).length := by
      rw [hrevs]; exact Nat.succ_pos _
    unfold getReviewStats
    rw [if_neg hpid, hp]
    simp only [hrevs]
    refine ⟨_, rfl, ?_⟩
    simp only [List.length_cons]
    refine ⟨by trivial, ?_, ?_, ?_, ?_, ?_, ?_⟩
    · simpa using foldl_add_eq_sum Review.likes (h0 :: t0) 0
    · simpa using foldl_add_eq_sum Review.dislikes (h0 :: t0) 0
    · simpa using foldl_add_eq_sum (fun r => r.replies.length) (h0 :: t0) 0
    · rw [if_pos (Nat.succ_pos t0.length)]
    · rw [if_pos (Nat.succ_pos t0.length)]
    · obtain ⟨l1, l2, hdec, hub, hlt⟩ := reduceMostLiked_spec h0 t0
      exact ⟨l1, reduceMostLiked h0 t0, l2, hdec, rfl, fun x hx => hub x hx, hlt⟩

/-- Witness for C9 at a concrete store with one review. -/
theorem c9_getReviewStats_aggregates_witness :
    ∃ st, getReviewStats demoStore "p1" = .ok st ∧
      st.totalReviews = (reviewsFor demoStore "p1").length ∧
      st.totalLikes = ((reviewsFor demoStore "p1").map Review.likes).sum ∧
      st.totalDislikes = ((reviewsFor demoStore "p1").map Review.dislikes).sum ∧
      st.totalReplies = ((reviewsFor demoStore "p1").map (fun r => r.replies.length)).sum ∧
      st.averageLikes = roundTo2 ((st.totalLikes : Rat) / (st.totalReviews : Rat)) ∧
      st.averageDislikes = roundTo2 ((st.totalDislikes : Rat) / (st.totalReviews : Rat)) ∧
      (∃ l1 m l2, reviewsFor demoStore "p1" = l1 ++ m :: l2 ∧
        st.mostLikedReview =
          some { review_id := m.review_id, likes := m.likes, comments := m.comments } ∧
        (∀ x ∈ reviewsFor demoStore "p1", x.likes ≤ m.likes) ∧
        (∀ x ∈ l1, x.likes < m.likes)) :=
  c9_getReviewStats_aggregates demoStore "p1" (by decide) demoProduct (by decide)
    (by decide)

/-- Referential integrity of `productVariants.parent_product_id`, enforced at
the storage layer by the FOREIGN KEY with ON DELETE CASCADE (migration 0002). -/
def variantsHaveParents (s : Store) : Prop :=
  ∀ v ∈ s.variants, ∃ p ∈ s.products, p.product_id = v.parent_product_id

instance (s : Store) : Decidable (variantsHaveParents s) :=
  inferInstanceAs (Decidable (∀ v ∈ s.variants, ∃ p ∈ s.products, _ = _))

/-- A nonempty active-variant list is the same as the existence of an active
variant of the product. -/
theorem activeVariants_pos_iff (s : Store) (pid : String) :
    0 < (activeVariants s pid).length ↔
      ∃ v ∈ s.variants, v.parent_product_id = pid ∧ v.is_active = true := by
  rw [List.length_pos_iff_exists_mem]
  constructor
  · rintro ⟨v, hv⟩
    rw [activeVariants, List.mem_filter] at hv
    exact ⟨v, hv.1, by simpa using hv.2⟩
  · rintro ⟨v, hv, hcond⟩
    exact ⟨v, by rw [activeVariants, List.mem_filter]; exact ⟨hv, by simpa using hcond⟩⟩

/-- C4: `getProductBySlug ` is a two-phase lookup.  If the slug matches a
product, it returns that product with its active variants attached and
`has_variants` true exactly when an active variant exists; if instead it
matches an active variant, it returns the parent product with all of the
parent's active variants plus `selected_variant`/`current_variant_slug`; if
neither lookup succeeds, it fails with NotFoundError.  Referential integrity
of the variants table is assumed (the storage layer's foreign key). -/
theorem c4_getProductBySlug_two_phase (s : Store) (slug : String) (hslug : slug ≠ "")
    (hri : variantsHaveParents s) :
    (∀ p, s.products.find? (fun x => x.slug = slug) = some p →
      getProductBySlug s slug = .ok
        { product := p
          variants :=
            if (activeVariants s p.product_id).length > 0 then
              some (activeVariants s p.product_id)
            else none
          has_variants := (activeVariants s p.product_id).length > 0
          selected_variant := none
          current_variant_slug := none } ∧
      (0 < (activeVariants s p.product_id).length ↔
        ∃ v ∈ s.variants, v.parent_product_id = p.product_id ∧ v.is_active = true)) ∧
    (s.products.find? (fun x => x.slug = slug) = none →
      ∀ v, s.variants.find? (fun x => x.slug = slug ∧ x.is_active = true) = some v →
      ∃ parent, s.products.find? (fun x => x.product_id = v.parent_product_id) = some parent ∧
        getProductBySlug s slug = .ok
          { product := parent
            variants := some (activeVariants s parent.product_id)
            has_variants := true
            selected_variant := some v
            current_variant_slug := some slug } ∧
        v ∈ activeVariants s parent.product_id) ∧
    (s.products.find? (fun x => x.slug = slug) = none →
      s.variants.find? (fun x => x.slug = slug ∧ x.is_active = true) = none →
      getProductBySlug s slug = .error .notFound) := by
  refine ⟨?_, ?_, ?_⟩
  · intro p hp
    refine ⟨?_, activeVariants_pos_iff s p.product_id⟩
    unfold getProductBySlug
    rw [if_neg hslug, hp]
  · intro hp v hv
    have hvmem : v ∈ s.variants := List.mem_of_find?_eq_some hv
    have hvprop := List.find?_some hv
    simp only [decide_eq_true_eq] at hvprop
    have hparent : (s.products.find? (fun x => x.product_id = v.parent_product_id)).isSome := by
      rw [List.find?_isSome]
      obtain ⟨p, hpmem, hpid⟩ := hri v hvmem
      exact ⟨p, hpmem, by simpa using hpid⟩
    obtain ⟨parent, hpar⟩ := Option.isSome_iff_exists.mp hparent
    have hparprop := List.find?_some hpar
    simp only [decide_eq_true_eq] at hparprop
    refine ⟨parent, hpar, ?_, ?_⟩
    · unfold getProductBySlug
      rw [if_neg hslug]
      simp only [hp, hv, hpar]
    · rw [activeVariants, List.mem_filter]
      exact ⟨hvmem, by simp [hparprop, hvprop.2]⟩
  · intro hp hv
    unfold getProductBySlug
    rw [if_neg hslug, hp, hv]

/-- Active demo variant of the demo product, as created with price 120 and a
10 percent discount. -/
def demoVariant : Variant :=
  { variant_id := "VAR-1", parent_product_id := "p1", slug := "plant-big"
    variant_name := "Big", variant_type := "size", price := 120, quantity := 5
    discount_percent := some 10, discount_price := some 108
    description := none, is_active := true }

/-- Demo store with a product and one active variant. -/
def demoStoreV : Store :=
  { products := [demoProduct], variants := [demoVariant], reviews := [], users := [] }

/-- Witness for C4 at a concrete store and a variant slug. -/
theorem c4_getProductBySlug_two_phase_witness :
    (∀ p, demoStoreV.products.find? (fun x => x.slug = "plant-big") = some p →
      getProductBySlug demoStoreV "plant-big" = .ok
        { product := p
          variants :=
            if (activeVariants demoStoreV p.product_id).length > 0 then
              some (activeVariants demoStoreV p.product_id)
            else none
          has_variants := (activeVariants demoStoreV p.product_id).length > 0
          selected_variant := none
          current_variant_slug := none } ∧
      (0 < (activeVariants demoStoreV p.product_id).length ↔
        ∃ v ∈ demoStoreV.variants, v.parent_product_id = p.product_id ∧ v.is_active = true)) ∧
    (demoStoreV.products.find? (fun x => x.slug = "plant-big") = none →
      ∀ v, demoStoreV.variants.find? (fun x => x.slug = "plant-big" ∧ x.is_active = true) = some v →
      ∃ parent, demoStoreV.products.find? (fun x => x.product_id = v.parent_product_id) = some parent ∧
        getProductBySlug demoStoreV "plant-big" = .ok
          { product := parent
            variants := some (activeVariants demoStoreV parent.product_id)
            has_variants := true
            selected_variant := some v
            current_variant_slug := some "plant-big" } ∧
        v ∈ activeVariants demoStoreV parent.product_id) ∧
    (demoStoreV.products.find? (fun x => x.slug = "plant-big") = none →
      demoStoreV.variants.find? (fun x => x.slug = "plant-big" ∧ x.is_active = true) = none →
      getProductBySlug demoStoreV "plant-big" = .error .notFound) :=
  c4_getProductBySlug_two_phase demoStoreV "plant-big" (by decide) (by decide)

/-- A second variant whose slug happens to equal the timestamp-suffixed slug
the controller will derive. -/
def demoVariantSuffixed : Variant :=
  { demoVariant with variant_id := "VAR-2", slug := "plant-big-5" }

/-- Store for the C5 counterexample: both `plant-big` and `plant-big-5`
already exist. -/
def c5store : Store :=
  { products := [demoProduct], variants := [demoVariant, demoVariantSuffixed]
    reviews := [], users := [] }

/-- Variant-creation request colliding on the derived slug `plant-big`. -/
def c5input : VariantInput :=
  { parent_product_id := "p1", variant_name := "Big", variant_type := "size"
    price := some 120, quantity := some 5, discount_percent := none
    description := none }

/-- Counterexample to C5 as stated: when the timestamp-suffixed slug
(`plant-big-5` at `Date.now() = 5`) itself already exists, the unchecked
insert violates the UNIQUE slug index and the call *does* fail (500), so
"never fails because of the collision" does not hold unconditionally. -/
theorem c5_counterexample :
    (createProductVariant c5store c5input "VAR-9" 5).1 = .error .internal ∧
    (createProductVariant c5store c5input "VAR-9" 5).2 = c5store :=
  ⟨rfl, rfl⟩

/-- C5 (amended): on a derived-slug collision, `createProductVariant` appends
the millisecond timestamp to the derived slug and inserts that suffixed slug
without re-probing it; provided the suffixed slug and the generated
variant_id are in fact fresh, the call succeeds with the suffixed slug and
distinctness of stored variant slugs is preserved. -/
theorem c5_collision_gets_suffix (s : Store) (inp : VariantInput) (vid : String)
    (nowMs : Nat)
    (hvalid : ¬(inp.parent_product_id = "" ∨ inp.variant_name = "" ∨
      inp.variant_type = "" ∨ inp.price = none ∨ inp.price = some 0 ∨
      inp.quantity = none))
    (parent : Product)
    (hpar : s.products.find? (fun p => p.product_id = inp.parent_product_id) =
      some parent)
    (hcol : (s.variants.find? (fun v =>
      v.slug = deriveVariantSlug parent.slug inp.variant_name)).isSome = true)
    (hvid : ∀ w ∈ s.variants, w.variant_id ≠ vid)
    (hfree : ∀ w ∈ s.variants,
      w.slug ≠ deriveVariantSlug parent.slug inp.variant_name ++ "-" ++ toString nowMs) :
    createProductVariant s inp vid nowMs =
      (.ok (builtVariant inp vid
          (deriveVariantSlug parent.slug inp.variant_name ++ "-" ++ toString nowMs)),
        { s with variants := s.variants ++
            [builtVariant inp vid
              (deriveVariantSlug parent.slug inp.variant_name ++ "-" ++ toString nowMs)] }) ∧
    ((s.variants.map Variant.slug).Nodup →
      ((createProductVariant s inp vid nowMs).2.variants.map Variant.slug).Nodup) := by
  have hslug : variantFinalSlug s parent.slug inp.variant_name nowMs =
      deriveVariantSlug parent.slug inp.variant_name ++ "-" ++ toString nowMs := by
    unfold variantFinalSlug
    rw [if_pos hcol]
  have hnoviol : variantInsertViolates s
      (builtVariant inp vid
        (deriveVariantSlug parent.slug inp.variant_name ++ "-" ++ toString nowMs)) = false := by
    rw [variantInsertViolates, List.any_eq_false]
    intro w hw
    simp only [builtVariant, decide_eq_true_eq]
    rintro (h | h)
    · exact hvid w hw h
    · exact hfree w hw h
  have hmain : createProductVariant s inp vid nowMs =
      (.ok (builtVariant inp vid
          (deriveVariantSlug parent.slug inp.variant_name ++ "-" ++ toString nowMs)),
        { s with variants := s.variants ++
            [builtVariant inp vid
              (deriveVariantSlug parent.slug inp.variant_name ++ "-" ++ toString nowMs)] }) := by
    unfold createProductVariant
    rw [if_neg hvalid]
    simp only [hpar, hslug, hnoviol]
    simp
  refine ⟨hmain, ?_⟩
  intro hnd
  rw [hmain]
  simp only [List.map_append]
  refine List.Nodup.append hnd (List.nodup_singleton _) ?_
  intro x hx1 hx2
  obtain ⟨w, hw, rfl⟩ := List.mem_map.1 hx1
  simp only [List.map_cons, List.map_nil, List.mem_singleton, builtVariant] at hx2
  exact hfree w hw hx2

/-- Store for the C5 witness: only the derived slug `plant-big` collides; the
suffixed slug is free. -/
def c5wstore : Store :=
  { products := [demoProduct], variants := [demoVariant], reviews := [], users := [] }

/-- Witness for the amended C5: colliding creation at `Date.now() = 7`
succeeds with slug `plant-big-7` and keeps slugs distinct. -/
theorem c5_collision_gets_suffix_witness :
    createProductVariant c5wstore c5input "VAR-3" 7 =
      (.ok (builtVariant c5input "VAR-3"
          (deriveVariantSlug demoProduct.slug c5input.variant_name ++ "-" ++ toString 7)),
        { c5wstore with variants := c5wstore.variants ++
            [builtVariant c5input "VAR-3"
              (deriveVariantSlug demoProduct.slug c5input.variant_name ++ "-" ++ toString 7)] }) ∧
    ((c5wstore.variants.map Variant.slug).Nodup →
      ((createProductVariant c5wstore c5input "VAR-3" 7).2.variants.map Variant.slug).Nodup) :=
  c5_collision_gets_suffix c5wstore c5input "VAR-3" 7 (by decide) demoProduct
    (by decide) (by decide) (by decide) (by decide)

/-- Variant-creation request with discount_percent present but zero. -/
def c6input : VariantInput :=
  { parent_product_id := "p1", variant_name := "Mini", variant_type := "size"
    price := some 120, quantity := some 2, discount_percent := some 0
    description := none }

/-- Counterexample to C6 as stated: with `discount_percent` present but equal
to 0 (falsy in JavaScript), the stored variant's `discount_price` is NULL,
not `price - price*0/100 = price` as the unconditional formula demands. -/
theorem c6_counterexample :
    (createProductVariant demoStoreV c6input "VAR-6" 3).1 =
      .ok (builtVariant c6input "VAR-6" "plant-mini") ∧
    (builtVariant c6input "VAR-6" "plant-mini").discount_price = none ∧
    some ((120 : Rat) - 120 * 0 / 100) ≠ (none : Option Rat) :=
  ⟨rfl, rfl, by simp⟩

/-- C6 (amended): whenever `discount_percent` is present and nonzero, the
stored variant's `discount_price` equals `price - price*discount_percent/100`
(and `discount_percent` is stored as given). -/
theorem c6_discount_price_formula (s : Store) (inp : VariantInput) (vid : String)
    (nowMs : Nat) (d p' : Rat)
    (hdp : inp.discount_percent = some d) (hd : d ≠ 0)
    (hprice : inp.price = some p')
    (v : Variant) (hok : (createProductVariant s inp vid nowMs).1 = .ok v) :
    v.discount_price = some (p' - p' * d / 100) ∧ v.discount_percent = some d := by
  unfold createProductVariant at hok
  split at hok
  · exact absurd hok (by simp)
  · cases hfind : s.products.find? (fun p => p.product_id = inp.parent_product_id) with
    | none => rw [hfind] at hok; exact absurd hok (by simp)
    | some parent =>
      simp only [hfind] at hok
      split at hok
      · exact absurd hok (by simp)
      · have hv : builtVariant inp vid
            (variantFinalSlug s parent.slug inp.variant_name nowMs) = v := by
          simpa using hok
        rw [← hv]
        constructor <;>
          simp [builtVariant, variantDpTruthy, hdp, hprice, hd]

/-- Variant-creation request matching the spec scenario: price 120,
discount_percent 10. -/
def c6winput : VariantInput :=
  { parent_product_id := "p1", variant_name := "Large", variant_type := "size"
    price := some 120, quantity := some 3, discount_percent := some 10
    description := none }

/-- Witness for the amended C6 at the spec's scenario: price 120 and
discount_percent 10 store `discount_price = 108`. -/
theorem c6_discount_price_formula_witness :
    ((builtVariant c6winput "VAR-7" "plant-large").discount_price =
      some ((120 : Rat) - 120 * 10 / 100) ∧
    (builtVariant c6winput "VAR-7" "plant-large").discount_percent =
      some (10 : Rat)) ∧
    some ((120 : Rat) - 120 * 10 / 100) = some ((108 : Rat)) :=
  ⟨c6_discount_price_formula demoStoreV c6winput "VAR-7" 9 10 120 rfl
      (by norm_num) rfl (builtVariant c6winput "VAR-7" "plant-large") (by rfl),
    by norm_num⟩

instance : IsTotal Product discountGE :=
  ⟨fun a b => le_total (b.discountPercent.getD 0) (a.discountPercent.getD 0)⟩

instance : IsTrans Product discountGE :=
  ⟨fun _ _ _ hab hbc => le_trans hbc hab⟩

/-- Products of the C7 scenario: discounts 25, 30, 15, 50, 22. -/
def discountProduct (n : Nat) (d : Option Rat) : Product :=
  { demoProduct with
    product_id := "p" ++ toString n
    slug := "plant" ++ toString n
    discountPercent := d }

/-- Store of the C7 scenario, in insertion order [25, 30, 15, 50, 22]. -/
def c7store : Store :=
  { products :=
      [discountProduct 1 (some 25), discountProduct 2 (some 30),
       discountProduct 3 (some 15), discountProduct 4 (some 50),
       discountProduct 5 (some 22)]
    variants := [], reviews := [], users := [] }

/-- C7: a successful `getProductsByMinDiscount` returns only stored products
whose discount meets the threshold, in descending discount order, capped at
4; every qualifying product appears in the full sorted list; and on the
spec's scenario (discounts [25,30,15,50,22], threshold 20) the result is
exactly [50,30,25,22]. -/
theorem c7_getProductsByMinDiscount_top4 (s : Store) (minD : Rat)
    (l : List Product) (hok : getProductsByMinDiscount s minD = .ok l) :
    (∀ p ∈ l, p ∈ s.products ∧ ∃ dp, p.discountPercent = some dp ∧ minD ≤ dp) ∧
    List.Pairwise discountGE l ∧
    l.length ≤ 4 ∧
    (∀ p ∈ s.products, ∀ dp, p.discountPercent = some dp → minD ≤ dp →
      p ∈ (s.products.filter (fun q =>
        match q.discountPercent with
        | some dq => minD ≤ dq
        | none => False)).insertionSort discountGE) ∧
    getProductsByMinDiscount c7store 20 =
      .ok [discountProduct 4 (some 50), discountProduct 2 (some 30),
           discountProduct 1 (some 25), discountProduct 5 (some 22)] := by
  unfold getProductsByMinDiscount at hok
  split at hok
  · exact absurd hok (by simp)
  · have hl : l = ((s.products.filter (fun q =>
        match q.discountPercent with
        | some dq => minD ≤ dq
        | none => False)).insertionSort discountGE).take 4 := by
      simpa using hok.symm
    subst hl
    refine ⟨?_, ?_, ?_, ?_, ?_⟩
    · intro p hp
      have hmem : p ∈ (s.products.filter (fun q =>
          match q.discountPercent with
          | some dq => minD ≤ dq
          | none => False)).insertionSort discountGE := List.mem_of_mem_take hp
      rw [(List.perm_insertionSort discountGE _).mem_iff, List.mem_filter] at hmem
      refine ⟨hmem.1, ?_⟩
      have := hmem.2
      cases hdp : p.discountPercent with
      | none => rw [hdp] at this; simp at this
      | some dp => rw [hdp] at this; simp at this; exact ⟨dp, rfl, this⟩
    · exact List.Pairwise.take (List.sorted_insertionSort discountGE _)
    · simpa using min_le_left 4 _
    · intro p hp dp hdp hge
      rw [(List.perm_insertionSort discountGE _).mem_iff, List.mem_filter]
      exact ⟨hp, by simp [hdp, hge]⟩
    · rfl

/-- Witness for C7 at the scenario store. -/
theorem c7_getProductsByMinDiscount_top4_witness :
    (∀ p ∈ [discountProduct 4 (some 50), discountProduct 2 (some 30),
            discountProduct 1 (some 25), discountProduct 5 (some 22)],
      p ∈ c7store.products ∧ ∃ dp, p.discountPercent = some dp ∧ (20 : Rat) ≤ dp) ∧
    List.Pairwise discountGE
      [discountProduct 4 (some 50), discountProduct 2 (some 30),
       discountProduct 1 (some 25), discountProduct 5 (some 22)] ∧
    ([discountProduct 4 (some 50), discountProduct 2 (some 30),
      discountProduct 1 (some 25), discountProduct 5 (some 22)]).length ≤ 4 ∧
    (∀ p ∈ c7store.products, ∀ dp, p.discountPercent = some dp → (20 : Rat) ≤ dp →
      p ∈ (c7store.products.filter (fun q =>
        match q.discountPercent with
        | some dq => (20 : Rat) ≤ dq
        | none => False)).insertionSort discountGE) ∧
    getProductsByMinDiscount c7store 20 =
      .ok [discountProduct 4 (some 50), discountProduct 2 (some 30),
           discountProduct 1 (some 25), discountProduct 5 (some 22)] :=
  c7_getProductsByMinDiscount_top4 c7store 20
    [discountProduct 4 (some 50), discountProduct 2 (some 30),
     discountProduct 1 (some 25), discountProduct 5 (some 22)] (by rfl)

/-- A store with no rows at all. -/
def emptyStore : Store := { products := [], variants := [], reviews := [], users := [] }

/-- Counterexample to C8 as stated: `getProductsByVendor` and
`getFeaturedProducts` have no empty-result check — a query matching zero
products returns a success with an empty list, not NotFoundError. -/
theorem c8_counterexample :
    getProductsByVendor emptyStore "v1" = .ok [] ∧
    getFeaturedProducts emptyStore = .ok [] ∧
    (Except.ok ([] : List Product) : Except ApiError (List Product)) ≠
      .error .notFound :=
  ⟨rfl, rfl, by simp⟩

/-- C8 (amended): the by-category, featured-by-category, min-discount,
top-rated-by-vendor and starting-price queries fail with NotFoundError on
zero matches, while the by-vendor and unfiltered featured queries return a
success with an empty list. -/
theorem c8_empty_result_policy (s : Store) (vendorID category : String)
    (minD price : Rat) (range : Option Rat)
    (hv : vendorID ≠ "") (hc : category ≠ "") :
    (s.products.filter (fun p => p.featured = true ∧ p.category = category) = [] →
      getFeaturedProductsByCategory s category = .error .notFound) ∧
    (s.products.filter (fun p => p.category = category) = [] →
      getProductsByCategory s category = .error .notFound) ∧
    (s.products.filter (fun p =>
        match p.discountPercent with
        | some d => minD ≤ d
        | none => False) = [] →
      getProductsByMinDiscount s minD = .error .notFound) ∧
    (s.products.filter (fun p => p.vendorID = vendorID) = [] →
      getTopRatedProductsByVendor s vendorID = .error .notFound) ∧
    (startingPriceFilter s price range = [] →
      getProductsByStartingPrice s price range = .error .notFound) ∧
    (s.products.filter (fun p => p.vendorID = vendorID) = [] →
      getProductsByVendor s vendorID = .ok []) ∧
    (s.products.filter (fun p => p.featured = true) = [] →
      getFeaturedProducts s = .ok []) := by
  refine ⟨?_, ?_, ?_, ?_, ?_, ?_, ?_⟩
  · intro hfil
    unfold getFeaturedProductsByCategory
    rw [if_neg hc, hfil]
    simp
  · intro hfil
    unfold getProductsByCategory
    rw [if_neg hc, hfil]
    simp
  · intro hfil
    unfold getProductsByMinDiscount
    rw [hfil]
    simp
  · intro hfil
    unfold getTopRatedProductsByVendor
    rw [if_neg hv, hfil]
    simp
  · intro hfil
    unfold getProductsByStartingPrice
    rw [hfil]
    simp
  · intro hfil
    unfold getProductsByVendor
    rw [if_neg hv, hfil]
  · intro hfil
    unfold getFeaturedProducts
    rw [hfil]

/-- Witness for the amended C8 on the empty store. -/
theorem c8_empty_result_policy_witness :
    ((emptyStore.products.filter
        (fun p => p.featured = true ∧ p.category = "c1") = [] →
      getFeaturedProductsByCategory emptyStore "c1" = .error .notFound) ∧
    (emptyStore.products.filter (fun p => p.category = "c1") = [] →
      getProductsByCategory emptyStore "c1" = .error .notFound) ∧
    (emptyStore.products.filter (fun p =>
        match p.discountPercent with
        | some d => (20 : Rat) ≤ d
        | none => False) = [] →
      getProductsByMinDiscount emptyStore 20 = .error .notFound) ∧
    (emptyStore.products.filter (fun p => p.vendorID = "v1") = [] →
      getTopRatedProductsByVendor emptyStore "v1" = .error .notFound) ∧
    (startingPriceFilter emptyStore 5 none = [] →
      getProductsByStartingPrice emptyStore 5 none = .error .notFound) ∧
    (emptyStore.products.filter (fun p => p.vendorID = "v1") = [] →
      getProductsByVendor emptyStore "v1" = .ok []) ∧
    (emptyStore.products.filter (fun p => p.featured = true) = [] →
      getFeaturedProducts emptyStore = .ok [])) :=
  c8_empty_result_policy emptyStore "v1" "c1" 20 5 none (by decide) (by decide)
